import Mathlib

/-!
Verification of the `messaging` package of the go-http-service-template
repository: the NATS client wrapper (client.go) and its subscription
helpers (subscribe.go).  Go functions are shallowly embedded as pure
Lean functions; the broker and the client are explicit state records,
calls into the external NATS library are parameterised by an injected
outcome, and machine effects (log lines, acknowledgement calls,
messages handed to the broker client) are recorded as data.
-/

namespace GoNats

/-- A NATS message as seen by a handler: subject and payload. -/
structure Msg where
  subject : String
  data : String
deriving DecidableEq

/-- Log events emitted by the handler wrappers in subscribe.go. -/
inductive LogEvent
  | handlerErr (subject data err : String)
  | ackFailure (subject err : String)
deriving DecidableEq

/-- Whether a log event is a handler-error log line. -/
def LogEvent.isHandlerErr : LogEvent → Bool
  | .handlerErr _ _ _ => true
  | _ => false

/-- The wrapper built by SubscribeToAll, SubscribeToSubject and
SubscribeToQueueGroup (subscribe.go): call the user handler; when it
returns an error, emit one error log line.  The Go wrapper has return
type void, so nothing can be propagated to the dispatch loop. -/
def wrapperHandler (handler : Msg → Option String) (m : Msg) : List LogEvent :=
  match handler m with
  | some e => [LogEvent.handlerErr m.subject m.data e]
  | none => []

/-- Effects of one invocation of the JetStream message wrapper
(subscribe.go, the msgHandler closure in SubscribeToJetStream): how
many times msg.Ack() was called, how many handler-error log lines and
how many failed-acknowledge log lines were emitted. -/
structure JsHandlerEffect where
  ackCalls : Nat
  handlerErrLogs : Nat
  ackFailLogs : Nat
deriving DecidableEq

/-- The msgHandler wrapper installed by SubscribeToJetStream: on a
handler error it logs and does not ack; on handler success it calls
msg.Ack() once and logs if the ack itself fails (ackErr is the injected
outcome of the Ack call). -/
def jsMsgHandler (handler : Msg → Option String) (ackErr : Option String) (m : Msg) : JsHandlerEffect :=
  match handler m with
  | some _ => ⟨0, 1, 0⟩
  | none =>
    match ackErr with
    | some _ => ⟨1, 0, 1⟩
    | none => ⟨1, 0, 0⟩

/-- Total number of msg.Ack() calls over a list of deliveries to the
JetStream wrapper. -/
def jsAckTotal (handler : Msg → Option String) (ackErr : Option String) : List Msg → Nat
  | [] => 0
  | m :: rest => (jsMsgHandler handler ackErr m).ackCalls + jsAckTotal handler ackErr rest

/-- The log output of one invocation of the JetStream wrapper, as a
list of events. -/
def jsWrapperLogs (handler : Msg → Option String) (ackErr : Option String) (m : Msg) : List LogEvent :=
  match handler m with
  | some e => [LogEvent.handlerErr m.subject m.data e]
  | none =>
    match ackErr with
    | some e => [LogEvent.ackFailure m.subject e]
    | none => []

/-- State of one broker-side subscription as the dispatch loop sees it:
whether it is still active, and how many handler-error log lines have
been emitted so far. -/
structure SubscriptionState where
  active : Bool
  errorLogCount : Nat
deriving DecidableEq

/-- One delivery by the broker dispatch loop to a callback.  The
callback returns its log lines, or propagates an error; a propagated
error tears the subscription down.  The wrappers of subscribe.go are
total (void return type in Go), embedded as callbacks that always
return ok, so the teardown branch is never taken by them. -/
def dispatchStep (callback : Msg → Except String (List LogEvent)) (st : SubscriptionState) (m : Msg) : SubscriptionState :=
  if st.active then
    match callback m with
    | Except.ok logs => ⟨true, st.errorLogCount + logs.countP LogEvent.isHandlerErr⟩
    | Except.error _ => ⟨false, st.errorLogCount⟩
  else st

/-- The plain-NATS wrapper as a dispatch callback: it never propagates. -/
def wrapperCallback (handler : Msg → Option String) (m : Msg) : Except String (List LogEvent) :=
  Except.ok (wrapperHandler handler m)

/-- The JetStream wrapper as a dispatch callback: it never propagates. -/
def jsWrapperCallback (handler : Msg → Option String) (ackErr : Option String) (m : Msg) : Except String (List LogEvent) :=
  Except.ok (jsWrapperLogs handler ackErr m)

/-- Folding the dispatch loop over a callback that always returns ok
keeps the subscription active and accumulates exactly the
handler-error log lines of each delivery. -/
theorem foldl_dispatchStep_ok (f : Msg → List LogEvent) (msgs : List Msg) :
    ∀ st : SubscriptionState, st.active = true →
      msgs.foldl (dispatchStep (fun m => Except.ok (f m))) st =
        ⟨true, st.errorLogCount + (msgs.map (fun m => (f m).countP LogEvent.isHandlerErr)).sum⟩ := by
  induction msgs with
  | nil =>
    intro st h
    cases st with
    | mk a c =>
      simp only [SubscriptionState.active] at h
      subst h
      simp
  | cons m rest ih =>
    intro st h
    cases st with
    | mk a c =>
      simp only [SubscriptionState.active] at h
      subst h
      have hstep : dispatchStep (fun m => Except.ok (f m)) ⟨true, c⟩ m =
          ⟨true, c + (f m).countP LogEvent.isHandlerErr⟩ := by
        simp [dispatchStep]
      rw [List.foldl_cons, hstep, ih _ rfl]
      simp [Nat.add_assoc]

/-- A pointwise if-then-else bound on a map turns its sum into a count. -/
theorem sum_map_eq_countP (c : Msg → Nat) (g : Msg → Bool) (hc : ∀ m, c m = if g m then 1 else 0) (msgs : List Msg) :
    (msgs.map c).sum = msgs.countP g := by
  induction msgs with
  | nil => simp
  | cons m rest ih =>
    rw [List.map_cons, List.sum_cons, ih, List.countP_cons, hc m]
    cases hg : g m <;> simp [hg] <;> omega

/-- C1: the JetStream wrapper acknowledges a delivery exactly once when
the user handler returns no error and never acknowledges when the
handler returns an error; over any list of deliveries the total number
of Ack calls equals the number of deliveries on which the handler
succeeded. -/
theorem jsHandler_ack_iff_success (handler : Msg → Option String) (ackErr : Option String) (m : Msg) (msgs : List Msg) :
    (jsMsgHandler handler ackErr m).ackCalls = (if handler m = none then 1 else 0) ∧
    jsAckTotal handler ackErr msgs = msgs.countP (fun x => (handler x).isNone) := by
  constructor
  · cases hm : handler m <;> cases ackErr <;> simp [jsMsgHandler, hm]
  · induction msgs with
    | nil => simp [jsAckTotal]
    | cons x rest ih =>
      rw [jsAckTotal, List.countP_cons, ih]
      cases hx : handler x <;> cases ackErr <;> simp [jsMsgHandler, hx] <;> omega

/-- C3: every wrapper completes normally whatever the handler returns:
after any list of deliveries the subscription is still active and the
error-log count has grown by exactly the number of deliveries on which
the handler returned an error.  This holds both for the plain wrapper
of SubscribeToAll / SubscribeToSubject / SubscribeToQueueGroup and for
the JetStream wrapper of SubscribeToJetStream. -/
theorem handler_error_isolation (handler : Msg → Option String) (ackErr : Option String)
    (msgs : List Msg) (st : SubscriptionState) (h : st.active = true) :
    msgs.foldl (dispatchStep (wrapperCallback handler)) st =
      ⟨true, st.errorLogCount + msgs.countP (fun m => (handler m).isSome)⟩ ∧
    msgs.foldl (dispatchStep (jsWrapperCallback handler ackErr)) st =
      ⟨true, st.errorLogCount + msgs.countP (fun m => (handler m).isSome)⟩ := by
  have h1 : ∀ m, (wrapperHandler handler m).countP LogEvent.isHandlerErr =
      if (handler m).isSome then 1 else 0 := by
    intro m
    cases hm : handler m <;> simp [wrapperHandler, hm, LogEvent.isHandlerErr]
  have h2 : ∀ m, (jsWrapperLogs handler ackErr m).countP LogEvent.isHandlerErr =
      if (handler m).isSome then 1 else 0 := by
    intro m
    cases hm : handler m <;> cases ackErr <;>
      simp [jsWrapperLogs, hm, LogEvent.isHandlerErr]
  constructor
  · rw [show wrapperCallback handler = fun m => Except.ok (wrapperHandler handler m) from rfl,
      foldl_dispatchStep_ok _ _ st h,
      sum_map_eq_countP _ _ h1]
  · rw [show jsWrapperCallback handler ackErr = fun m => Except.ok (jsWrapperLogs handler ackErr m) from rfl,
      foldl_dispatchStep_ok _ _ st h,
      sum_map_eq_countP _ _ h2]

/-- Witness for C3 at a concrete input: a handler that always fails,
two deliveries, an initially active subscription. -/
theorem handler_error_isolation_witness :
    (⟨true, 0⟩ : SubscriptionState).active = true ∧
    ([⟨"a", "x"⟩, ⟨"a", "y"⟩] : List Msg).foldl
        (dispatchStep (wrapperCallback (fun _ => some "boom"))) ⟨true, 0⟩ =
      ⟨true, (0 : Nat) + ([⟨"a", "x"⟩, ⟨"a", "y"⟩] : List Msg).countP
          (fun m => ((fun _ => some "boom") m : Option String).isSome)⟩ :=
  ⟨rfl, (handler_error_isolation (fun _ => some "boom") none [⟨"a", "x"⟩, ⟨"a", "y"⟩] ⟨true, 0⟩ rfl).1⟩

/-- Storage tier of a JetStream stream. -/
inductive StorageType
  | memory
  | file
deriving DecidableEq

/-- Acknowledgement policy of a JetStream consumer. -/
inductive AckPolicy
  | explicit
  | allPolicy
  | nonePolicy
deriving DecidableEq

/-- The fields of jetstream.StreamConfig exercised by this repository. -/
structure StreamConfig where
  name : String
  subjects : List String
  storage : StorageType
deriving DecidableEq

/-- The fields of jetstream.ConsumerConfig exercised by this repository. -/
structure ConsumerConfig where
  name : String
  filterSubject : String
  ackPolicy : AckPolicy
deriving DecidableEq

/-- Look up a key in an association list, first match wins; this is the
read side of a Go map. -/
def lookupKey {α : Type} : List (String × α) → String → Option α
  | [], _ => none
  | (k1, v) :: rest, k => if k1 = k then some v else lookupKey rest k

/-- Go map assignment: replace the first entry with the given key, or
append the pair when the key is absent. -/
def insertReplace {α : Type} : List (String × α) → String → α → List (String × α)
  | [], k, v => [(k, v)]
  | (k1, v1) :: rest, k, v => if k1 = k then (k, v) :: rest else (k1, v1) :: insertReplace rest k v

/-- Number of entries under a given key. -/
def countKey {α : Type} : List (String × α) → String → Nat
  | [], _ => 0
  | (k1, _) :: rest, k => (if k1 = k then 1 else 0) + countKey rest k

/-- State held by the external broker client (the nats.go library plus
the server): active subscription identities, the id counter, provisioned
streams and consumers by name, and every message this layer has handed
to the broker client for publishing. -/
structure Broker where
  subs : List Nat
  nextId : Nat
  streams : List (String × StreamConfig)
  consumers : List (String × ConsumerConfig)
  published : List (String × String)
deriving DecidableEq

/-- State of a NatsClient value (client.go): whether c.conn is nil,
whether c.conn.IsConnected() currently holds, whether c.js is nil, and
the subscribers registry map keyed by derived subscription key. -/
structure Client where
  connNil : Bool
  connConnected : Bool
  jsNil : Bool
  subscribers : List (String × Nat)
deriving DecidableEq

/-- The broker-side effect of nats.Conn.Subscribe / QueueSubscribe: a
fresh subscription id becomes active at the broker. -/
def connSubscribe (b : Broker) : Broker × Nat :=
  ({ b with subs := b.nextId :: b.subs, nextId := b.nextId + 1 }, b.nextId)

/-- NatsClient.Publish: guard on nil / disconnected conn, then hand the
payload to the broker client (pubErr is the injected outcome of the
underlying conn.Publish call). -/
def Publish (c : Client) (b : Broker) (subject data : String) (pubErr : Option String) :
    Except String Unit × Broker :=
  if c.connNil || !c.connConnected then
    (Except.error "not connected to NATS", b)
  else
    match pubErr with
    | some e => (Except.error e, { b with published := (subject, data) :: b.published })
    | none => (Except.ok (), { b with published := (subject, data) :: b.published })

/-- NatsClient.Request: guard on nil / disconnected conn, then hand the
request message to the broker client and return its injected reply. -/
def Request (c : Client) (b : Broker) (subject data : String) (timeoutMs : Nat)
    (reply : Except String Msg) : Except String Msg × Broker :=
  if c.connNil || !c.connConnected then
    (Except.error "not connected to NATS", b)
  else
    (reply, { b with published := (subject, data) :: b.published })

/-- NatsClient.PublishAsync: guards only on a nil JetStream context —
NOT on connection state — then hands the payload to the broker client
via js.PublishAsync (pubErr is the injected outcome of that call). -/
def PublishAsync (c : Client) (b : Broker) (subject data : String) (pubErr : Option String) :
    Except String Unit × Broker :=
  if c.jsNil then
    (Except.error "JetStream not initialized", b)
  else
    match pubErr with
    | some e =>
      (Except.error ("failed to publish message to " ++ subject ++ ": " ++ e),
       { b with published := (subject, data) :: b.published })
    | none => (Except.ok (), { b with published := (subject, data) :: b.published })

/-- NatsClient.Subscribe: guard on nil / disconnected conn; on success
the broker-level subscription is created and registered in the
subscribers map under the subject as key (subErr is the injected
outcome of the underlying conn.Subscribe call). -/
def Subscribe (c : Client) (b : Broker) (subject : String) (subErr : Option String) :
    Except String (Client × Broker × Nat) :=
  if c.connNil || !c.connConnected then
    Except.error "not connected to NATS"
  else
    match subErr with
    | some e => Except.error ("failed to subscribe to " ++ subject ++ ": " ++ e)
    | none =>
      let p := connSubscribe b
      Except.ok ({ c with subscribers := insertReplace c.subscribers subject p.2 }, p.1, p.2)

/-- NatsClient.QueueSubscribe: as Subscribe, with registry key
subject + ":" + queue. -/
def QueueSubscribe (c : Client) (b : Broker) (subject queue : String) (subErr : Option String) :
    Except String (Client × Broker × Nat) :=
  if c.connNil || !c.connConnected then
    Except.error "not connected to NATS"
  else
    match subErr with
    | some e => Except.error ("failed to queue subscribe to " ++ subject ++ ": " ++ e)
    | none =>
      let p := connSubscribe b
      Except.ok ({ c with subscribers := insertReplace c.subscribers (subject ++ ":" ++ queue) p.2 }, p.1, p.2)

/-- NatsClient.GetStream: guard on nil JetStream context, then look the
stream up by name at the broker, wrapping a lookup failure. -/
def GetStream (jsNil : Bool) (streams : List (String × StreamConfig)) (name : String) :
    Except String StreamConfig :=
  if jsNil then
    Except.error "JetStream not initialized"
  else
    match lookupKey streams name with
    | some cfg => Except.ok cfg
    | none => Except.error "failed to get stream: stream not found"

/-- NatsClient.CreateStream: guard on nil JetStream context, then
create-or-update the stream at the broker under its configured name
(rejectErr is the injected outcome of js.CreateOrUpdateStream; the
subsequent Info call is taken to succeed on a created stream). -/
def CreateStream (jsNil : Bool) (streams : List (String × StreamConfig)) (cfg : StreamConfig)
    (rejectErr : Option String) : Except String (List (String × StreamConfig) × StreamConfig) :=
  if jsNil then
    Except.error "JetStream not initialized"
  else
    match rejectErr with
    | some e => Except.error ("failed to create stream: " ++ e)
    | none => Except.ok (insertReplace streams cfg.name cfg, cfg)

/-- EnsureStream (subscribe.go): try GetStream first and return the
existing stream unchanged on a hit; otherwise create the stream with
the given name, the given subjects and memory storage. -/
def EnsureStream (jsNil : Bool) (streams : List (String × StreamConfig)) (name : String)
    (subjects : List String) (rejectErr : Option String) :
    Except String (List (String × StreamConfig) × StreamConfig) :=
  match GetStream jsNil streams name with
  | Except.ok s => Except.ok (streams, s)
  | Except.error _ => CreateStream jsNil streams ⟨name, subjects, StorageType.memory⟩ rejectErr

/-- The context timeout that SubscribeToJetStream installs around its
provisioning calls: context.WithTimeout(context.Background(),
10*time.Second). -/
def subscribeJetStreamTimeoutSeconds : Nat := 10

/-- SubscribeToAll (subscribe.go): on a nil client or nil conn it
returns (nil, nil); otherwise it subscribes on the wildcard subject
directly through c.conn and returns the subscription handle.  The
client value, its registry included, is returned as the function left
it (the Go body never writes a client field). -/
def SubscribeToAll (client : Option Client) (b : Broker) (subErr : Option String) :
    Except String (Option Nat) × Option Client × Broker :=
  match client with
  | none => (Except.ok none, none, b)
  | some c =>
    if c.connNil then
      (Except.ok none, some c, b)
    else
      match subErr with
      | some e => (Except.error e, some c, b)
      | none =>
        let p := connSubscribe b
        (Except.ok (some p.2), some c, p.1)

/-- SubscribeToSubject (subscribe.go): same shape as SubscribeToAll on
a caller-chosen subject. -/
def SubscribeToSubject (client : Option Client) (b : Broker) (subject : String)
    (subErr : Option String) : Except String (Option Nat) × Option Client × Broker :=
  match client with
  | none => (Except.ok none, none, b)
  | some c =>
    if c.connNil then
      (Except.ok none, some c, b)
    else
      match subErr with
      | some e => (Except.error e, some c, b)
      | none =>
        let p := connSubscribe b
        (Except.ok (some p.2), some c, p.1)

/-- SubscribeToQueueGroup (subscribe.go): same shape again, through
c.conn.QueueSubscribe. -/
def SubscribeToQueueGroup (client : Option Client) (b : Broker) (subject queue : String)
    (subErr : Option String) : Except String (Option Nat) × Option Client × Broker :=
  match client with
  | none => (Except.ok none, none, b)
  | some c =>
    if c.connNil then
      (Except.ok none, some c, b)
    else
      match subErr with
      | some e => (Except.error e, some c, b)
      | none =>
        let p := connSubscribe b
        (Except.ok (some p.2), some c, p.1)

/-- SubscribeToJetStream (subscribe.go): on a nil client or nil js it
returns (nil, nil); otherwise it ensures the stream exists for the
subject list [subject] (a singleton), creates-or-updates the durable
consumer named "consumer_" + subject filtered to the subject with
explicit ack, and starts consuming (rejectErr, consumeErr are the
injected outcomes of the stream-create and Consume calls; the
create-or-update of the consumer is the broker accepting the
configuration).  The client value is returned as the function left it. -/
def SubscribeToJetStream (client : Option Client) (b : Broker) (streamName subject : String)
    (rejectErr consumeErr : Option String) :
    Except String (Option ConsumerConfig) × Option Client × Broker :=
  match client with
  | none => (Except.ok none, none, b)
  | some c =>
    if c.jsNil then
      (Except.ok none, some c, b)
    else
      match EnsureStream c.jsNil b.streams streamName [subject] rejectErr with
      | Except.error e => (Except.error e, some c, b)
      | Except.ok (streams1, _) =>
        let cfg : ConsumerConfig := ⟨"consumer_" ++ subject, subject, AckPolicy.explicit⟩
        let b1 : Broker :=
          { b with streams := streams1, consumers := insertReplace b.consumers cfg.name cfg }
        match consumeErr with
        | some e => (Except.error e, some c, b1)
        | none => (Except.ok (some cfg), some c, b1)

/-- A connected client with an initialised JetStream context and an
empty registry. -/
def clientDemo : Client := ⟨false, true, false, []⟩

/-- A client whose conn is non-nil but currently disconnected, with the
JetStream context initialised (the state a connected client reaches
after a network drop). -/
def clientDisconnected : Client := ⟨false, false, false, []⟩

/-- A client whose JetStream context is nil. -/
def clientNoJs : Client := ⟨false, true, true, []⟩

/-- A broker with no state. -/
def brokerEmpty : Broker := ⟨[], 0, [], [], []⟩

/-- Looking a key up right after assigning it yields the assigned value. -/
theorem lookupKey_insertReplace_self {α : Type} (l : List (String × α)) (k : String) (v : α) :
    lookupKey (insertReplace l k v) k = some v := by
  induction l with
  | nil => simp [insertReplace, lookupKey]
  | cons p rest ih =>
    obtain ⟨k1, v1⟩ := p
    by_cases hk : k1 = k
    · subst hk
      simp [insertReplace, lookupKey]
    · simp [insertReplace, lookupKey, hk, ih]

/-- Assigning one key leaves lookups of every other key unchanged. -/
theorem lookupKey_insertReplace_ne {α : Type} (l : List (String × α)) (k k1 : String) (v : α)
    (h : k1 ≠ k) : lookupKey (insertReplace l k v) k1 = lookupKey l k1 := by
  induction l with
  | nil => simp [insertReplace, lookupKey, Ne.symm h]
  | cons p rest ih =>
    obtain ⟨k2, v2⟩ := p
    by_cases hk : k2 = k
    · subst hk
      simp [insertReplace, lookupKey, Ne.symm h]
    · by_cases hk1 : k2 = k1
      · simp [insertReplace, lookupKey, hk, hk1, ih, h]
      · simp [insertReplace, lookupKey, hk, hk1, ih]

/-- Assigning a key leaves exactly one entry under it when the key was
absent and otherwise replaces the first entry in place. -/
theorem countKey_insertReplace_self {α : Type} (l : List (String × α)) (k : String) (v : α) :
    countKey (insertReplace l k v) k = max 1 (countKey l k) := by
  induction l with
  | nil => simp [insertReplace, countKey]
  | cons p rest ih =>
    obtain ⟨k1, v1⟩ := p
    by_cases hk : k1 = k
    · subst hk
      simp [insertReplace, countKey]
    · simp [insertReplace, countKey, hk, ih]

/-- Assigning one key does not change the entry count of another key. -/
theorem countKey_insertReplace_ne {α : Type} (l : List (String × α)) (k k1 : String) (v : α)
    (h : k1 ≠ k) : countKey (insertReplace l k v) k1 = countKey l k1 := by
  induction l with
  | nil => simp [insertReplace, countKey, Ne.symm h]
  | cons p rest ih =>
    obtain ⟨k2, v2⟩ := p
    by_cases hk : k2 = k
    · subst hk
      simp [insertReplace, countKey, Ne.symm h]
    · by_cases hk1 : k2 = k1
      · simp [insertReplace, countKey, hk, hk1, ih, h]
      · simp [insertReplace, countKey, hk, hk1, ih]

/-- Inversion of a successful Subscribe call: the guard passed, the
underlying subscribe was accepted, the registry gained the subject key
and the broker gained a fresh subscription. -/
theorem Subscribe_ok_inv (c : Client) (b : Broker) (s : String) (e : Option String)
    (c1 : Client) (b1 : Broker) (sid : Nat)
    (h : Subscribe c b s e = Except.ok (c1, b1, sid)) :
    c1 = { c with subscribers := insertReplace c.subscribers s sid } ∧
    b1 = { b with subs := b.nextId :: b.subs, nextId := b.nextId + 1 } ∧
    sid = b.nextId := by
  unfold Subscribe at h
  by_cases hc : (c.connNil || !c.connConnected) = true
  · rw [if_pos hc] at h
    injection h
  · rw [if_neg hc] at h
    cases e with
    | some e0 => injection h
    | none =>
      simp only [connSubscribe, Except.ok.injEq, Prod.mk.injEq] at h
      obtain ⟨h1, h2, h3⟩ := h
      subst h3
      exact ⟨h1.symm, h2.symm, rfl⟩

/-- Inversion of a successful QueueSubscribe call. -/
theorem QueueSubscribe_ok_inv (c : Client) (b : Broker) (s q : String) (e : Option String)
    (c1 : Client) (b1 : Broker) (sid : Nat)
    (h : QueueSubscribe c b s q e = Except.ok (c1, b1, sid)) :
    c1 = { c with subscribers := insertReplace c.subscribers (s ++ ":" ++ q) sid } ∧
    b1 = { b with subs := b.nextId :: b.subs, nextId := b.nextId + 1 } ∧
    sid = b.nextId := by
  unfold QueueSubscribe at h
  by_cases hc : (c.connNil || !c.connConnected) = true
  · rw [if_pos hc] at h
    injection h
  · rw [if_neg hc] at h
    cases e with
    | some e0 => injection h
    | none =>
      simp only [connSubscribe, Except.ok.injEq, Prod.mk.injEq] at h
      obtain ⟨h1, h2, h3⟩ := h
      subst h3
      exact ⟨h1.symm, h2.symm, rfl⟩

/-- C2 (counterexample): a client whose conn is non-nil but currently
disconnected, with the JetStream context initialised.  PublishAsync
does not return a not-connected-class error: it succeeds and hands the
payload to the broker client, so the claim fails as stated for
PublishAsync. -/
theorem publishAsync_disconnected_counterexample :
    clientDisconnected.connNil = false ∧
    clientDisconnected.connConnected = false ∧
    (PublishAsync clientDisconnected brokerEmpty "subj" "payload" none).1 = Except.ok () ∧
    (PublishAsync clientDisconnected brokerEmpty "subj" "payload" none).2.published =
      [("subj", "payload")] :=
  ⟨rfl, rfl, rfl, rfl⟩

/-- C2 (amended): Publish and Request fail with the not-connected error
and hand nothing to the broker whenever conn is nil or disconnected;
PublishAsync guards only on a nil JetStream context — it fails with no
side effect exactly when js is nil, and otherwise hands the payload to
the broker client even on a disconnected connection. -/
theorem publish_guards_amended (c : Client) (b : Broker) (s d : String) (pe : Option String)
    (t : Nat) (reply : Except String Msg) :
    ((c.connNil || !c.connConnected) = true →
      Publish c b s d pe = (Except.error "not connected to NATS", b) ∧
      Request c b s d t reply = (Except.error "not connected to NATS", b)) ∧
    (c.jsNil = true →
      PublishAsync c b s d pe = (Except.error "JetStream not initialized", b)) ∧
    (c.jsNil = false →
      (PublishAsync c b s d pe).2.published = (s, d) :: b.published) := by
  refine ⟨fun hc => ⟨?_, ?_⟩, fun hjs => ?_, fun hjs => ?_⟩
  · rw [Publish.eq_def, if_pos hc]
  · rw [Request, if_pos hc]
  · rw [PublishAsync.eq_def, if_pos hjs]
  · rw [PublishAsync.eq_def, if_neg (by simp [hjs])]
    cases pe <;> rfl

/-- Witness for C2's amended statement at concrete inputs: a
disconnected client for the Publish guard, a js-less client for the
PublishAsync guard. -/
theorem publish_guards_amended_witness :
    ((clientDisconnected.connNil || !clientDisconnected.connConnected) = true ∧
      Publish clientDisconnected brokerEmpty "s" "d" none =
        (Except.error "not connected to NATS", brokerEmpty)) ∧
    (clientNoJs.jsNil = true ∧
      PublishAsync clientNoJs brokerEmpty "s" "d" none =
        (Except.error "JetStream not initialized", brokerEmpty)) :=
  ⟨⟨rfl, ((publish_guards_amended clientDisconnected brokerEmpty "s" "d" none 0
      (Except.error "x")).1 rfl).1⟩,
   ⟨rfl, (publish_guards_amended clientNoJs brokerEmpty "s" "d" none 0
      (Except.error "x")).2.1 rfl⟩⟩

/-- C4: for a name with no existing stream, EnsureStream creates the
stream with the requested subjects and memory storage; calling
EnsureStream again on the same name with ANY other subject list (and
any injected broker outcome) returns the stream created first, with the
broker state unchanged. -/
theorem ensureStream_idempotent (streams : List (String × StreamConfig)) (name : String)
    (S1 S2 : List String) (re : Option String)
    (h : lookupKey streams name = none) :
    EnsureStream false streams name S1 none =
      Except.ok (insertReplace streams name ⟨name, S1, StorageType.memory⟩,
        (⟨name, S1, StorageType.memory⟩ : StreamConfig)) ∧
    EnsureStream false (insertReplace streams name ⟨name, S1, StorageType.memory⟩) name S2 re =
      Except.ok (insertReplace streams name ⟨name, S1, StorageType.memory⟩,
        (⟨name, S1, StorageType.memory⟩ : StreamConfig)) := by
  constructor
  · simp [EnsureStream, GetStream, h, CreateStream]
  · simp [EnsureStream, GetStream, lookupKey_insertReplace_self]

/-- Witness for C4 at a concrete input: an empty broker, the name
"orders", first subjects ["a"], second subjects ["b"]. -/
theorem ensureStream_idempotent_witness :
    lookupKey ([] : List (String × StreamConfig)) "orders" = none ∧
    EnsureStream false (insertReplace ([] : List (String × StreamConfig)) "orders"
        ⟨"orders", ["a"], StorageType.memory⟩) "orders" ["b"] none =
      Except.ok (insertReplace ([] : List (String × StreamConfig)) "orders"
          ⟨"orders", ["a"], StorageType.memory⟩,
        (⟨"orders", ["a"], StorageType.memory⟩ : StreamConfig)) :=
  ⟨rfl, (ensureStream_idempotent [] "orders" ["a"] ["b"] none rfl).2⟩

/-- C5 (counterexample): SubscribeToJetStream on a fresh broker ensures
the stream for the singleton subject list [subject] only; the claimed
extra pattern subject + ".*" is not among the created stream's
subjects. -/
theorem subscribeJetStream_subjects_counterexample :
    (SubscribeToJetStream (some clientDemo) brokerEmpty "s" "a" none none).2.2.streams =
      [("s", ⟨"s", ["a"], StorageType.memory⟩)] ∧
    ¬ ("a.*" ∈ (["a"] : List String)) :=
  ⟨rfl, by decide⟩

/-- C5 (amended): on a live JetStream context and a not-yet-existing
stream name, SubscribeToJetStream ensures the stream for the singleton
subject set, creates-or-updates the durable consumer named
"consumer_" + subject filtered to the subject with explicit ack, and
the context timeout around the provisioning calls is 10 seconds. -/
theorem subscribeJetStream_provisioning_amended (c : Client) (b : Broker) (sn s : String)
    (hjs : c.jsNil = false) (habsent : lookupKey b.streams sn = none) :
    SubscribeToJetStream (some c) b sn s none none =
      (Except.ok (some ⟨"consumer_" ++ s, s, AckPolicy.explicit⟩), some c,
       { b with streams := insertReplace b.streams sn ⟨sn, [s], StorageType.memory⟩,
                consumers := insertReplace b.consumers ("consumer_" ++ s)
                  ⟨"consumer_" ++ s, s, AckPolicy.explicit⟩ }) ∧
    subscribeJetStreamTimeoutSeconds = 10 :=
  ⟨by simp [SubscribeToJetStream, hjs, EnsureStream, GetStream, habsent, CreateStream], rfl⟩

/-- Witness for C5's amended statement at a concrete input. -/
theorem subscribeJetStream_provisioning_amended_witness :
    clientDemo.jsNil = false ∧
    lookupKey brokerEmpty.streams "s" = none ∧
    SubscribeToJetStream (some clientDemo) brokerEmpty "s" "a" none none =
      (Except.ok (some ⟨"consumer_" ++ "a", "a", AckPolicy.explicit⟩), some clientDemo,
       { brokerEmpty with
           streams := insertReplace brokerEmpty.streams "s" ⟨"s", ["a"], StorageType.memory⟩,
           consumers := insertReplace brokerEmpty.consumers ("consumer_" ++ "a")
             ⟨"consumer_" ++ "a", "a", AckPolicy.explicit⟩ }) :=
  ⟨rfl, rfl, (subscribeJetStream_provisioning_amended clientDemo brokerEmpty "s" "a" rfl rfl).1⟩

/-- The three outcomes the PublishAsync acknowledgement goroutine can
log. -/
inductive AckWaitOutcome
  | okLogged
  | errLogged
  | timeoutLogged
deriving DecidableEq

/-- When the goroutine's ctx.Done channel closes, in milliseconds after
the publish: the context carries a 5000 ms deadline, and the deferred
cancel() runs as soon as PublishAsync returns (returnAt), whichever is
first. -/
def ctxDoneAt (returnAt : Nat) : Nat := min returnAt 5000

/-- The select inside the PublishAsync goroutine, resolved
deterministically to the branch whose channel is ready first (okAt and
errAt are the arrival times of ack-ok and ack-error, none meaning the
broker never resolves; Go breaks ties among simultaneously ready
channels randomly, so this model is only evaluated at inputs where one
branch is strictly earliest).  Returns the logged outcome and the time
at which the goroutine finishes. -/
def ackWaitSelect (okAt errAt : Option Nat) (doneAt : Nat) : AckWaitOutcome × Nat :=
  match okAt, errAt with
  | some o, some e =>
    if o ≤ e ∧ o ≤ doneAt then (AckWaitOutcome.okLogged, o)
    else if e ≤ doneAt then (AckWaitOutcome.errLogged, e)
    else (AckWaitOutcome.timeoutLogged, doneAt)
  | some o, none =>
    if o ≤ doneAt then (AckWaitOutcome.okLogged, o)
    else (AckWaitOutcome.timeoutLogged, doneAt)
  | none, some e =>
    if e ≤ doneAt then (AckWaitOutcome.errLogged, e)
    else (AckWaitOutcome.timeoutLogged, doneAt)
  | none, none => (AckWaitOutcome.timeoutLogged, doneAt)

/-- The acknowledgement wait of PublishAsync as the code runs it: the
select races ack-ok, ack-error and ctx.Done, where ctx.Done closes at
the deferred cancel (returnAt) or at the 5000 ms deadline, whichever
comes first. -/
def publishAsyncAckWait (returnAt : Nat) (okAt errAt : Option Nat) : AckWaitOutcome × Nat :=
  ackWaitSelect okAt errAt (ctxDoneAt returnAt)

/-- C6 (code bug): PublishAsync returns immediately after spawning the
goroutine, so the deferred cancel() closes ctx.Done at time 0; with the
broker acknowledging at 1000 ms — well inside the 5-second bound — the
goroutine nevertheless takes the ctx.Done branch at time 0 and logs the
timeout outcome.  Had the context lived to its 5000 ms deadline, the
same arrivals would log the ack-ok outcome at 1000 ms. -/
theorem publishAsync_ctx_cancelled_early :
    publishAsyncAckWait 0 (some 1000) none = (AckWaitOutcome.timeoutLogged, 0) ∧
    (1000 : Nat) ≤ 5000 ∧
    ackWaitSelect (some 1000) none 5000 = (AckWaitOutcome.okLogged, 1000) := by
  refine ⟨?_, by omega, ?_⟩ <;> decide

/-- One call into the registry-writing subscription API of client.go,
carrying the injected outcome of the underlying broker subscribe call. -/
inductive SubOp
  | plain (subject : String) (subErr : Option String)
  | queued (subject queue : String) (subErr : Option String)

/-- Run one subscription call against the client and the broker,
keeping the previous state when the call returns an error. -/
def applyOp (cb : Client × Broker) (op : SubOp) : Client × Broker :=
  match op with
  | SubOp.plain s e =>
    match Subscribe cb.1 cb.2 s e with
    | Except.ok r => (r.1, r.2.1)
    | Except.error _ => cb
  | SubOp.queued s q e =>
    match QueueSubscribe cb.1 cb.2 s q e with
    | Except.ok r => (r.1, r.2.1)
    | Except.error _ => cb

/-- Run a sequence of subscription calls. -/
def runOps (cb : Client × Broker) (ops : List SubOp) : Client × Broker :=
  ops.foldl applyOp cb

/-- One subscription call keeps every key's registry entry count at
most one. -/
theorem applyOp_countKey_le_one (cb : Client × Broker) (op : SubOp)
    (h : ∀ k, countKey cb.1.subscribers k ≤ 1) :
    ∀ k, countKey (applyOp cb op).1.subscribers k ≤ 1 := by
  intro k
  cases op with
  | plain s e =>
    cases hs : Subscribe cb.1 cb.2 s e with
    | error e1 =>
      simp only [applyOp, hs]
      exact h k
    | ok r =>
      obtain ⟨c1, b1, sid⟩ := r
      obtain ⟨hc1, _, _⟩ := Subscribe_ok_inv cb.1 cb.2 s e c1 b1 sid hs
      simp only [applyOp, hs, hc1]
      by_cases hk : k = s
      · subst hk
        rw [countKey_insertReplace_self]
        exact Nat.max_le.mpr ⟨Nat.le_refl 1, h k⟩
      · rw [countKey_insertReplace_ne _ _ _ _ hk]
        exact h k
  | queued s q e =>
    cases hs : QueueSubscribe cb.1 cb.2 s q e with
    | error e1 =>
      simp only [applyOp, hs]
      exact h k
    | ok r =>
      obtain ⟨c1, b1, sid⟩ := r
      obtain ⟨hc1, _, _⟩ := QueueSubscribe_ok_inv cb.1 cb.2 s q e c1 b1 sid hs
      simp only [applyOp, hs, hc1]
      by_cases hk : k = s ++ ":" ++ q
      · subst hk
        rw [countKey_insertReplace_self]
        exact Nat.max_le.mpr ⟨Nat.le_refl 1, h _⟩
      · rw [countKey_insertReplace_ne _ _ _ _ hk]
        exact h k

/-- C7: starting from a registry in which no key has more than one
entry, any sequence of Subscribe / QueueSubscribe calls keeps every
key's entry count at most one; a successful Subscribe under a key
(present or not) leaves exactly one entry under that key, holding the
new subscription. -/
theorem registry_key_unique (ops : List SubOp) (c : Client) (b : Broker)
    (h : ∀ k, countKey c.subscribers k ≤ 1) :
    (∀ k, countKey (runOps (c, b) ops).1.subscribers k ≤ 1) ∧
    (∀ subject subErr c1 b1 sid,
      Subscribe c b subject subErr = Except.ok (c1, b1, sid) →
        lookupKey c1.subscribers subject = some sid ∧
        countKey c1.subscribers subject = 1) := by
  constructor
  · have main : ∀ (l : List SubOp) (cb : Client × Broker),
        (∀ k, countKey cb.1.subscribers k ≤ 1) →
        ∀ k, countKey (runOps cb l).1.subscribers k ≤ 1 := by
      intro l
      induction l with
      | nil => intro cb hcb k; exact hcb k
      | cons op rest ih =>
        intro cb hcb k
        show countKey ((op :: rest).foldl applyOp cb).1.subscribers k ≤ 1
        rw [List.foldl_cons]
        exact ih (applyOp cb op) (applyOp_countKey_le_one cb op hcb) k
    exact main ops (c, b) h
  · intro subject subErr c1 b1 sid hs
    obtain ⟨hc1, _, _⟩ := Subscribe_ok_inv c b subject subErr c1 b1 sid hs
    subst hc1
    refine ⟨lookupKey_insertReplace_self _ _ _, ?_⟩
    rw [countKey_insertReplace_self]
    exact max_eq_left (h subject)

/-- Witness for C7 at a concrete input: two subscriptions to the same
subject on a fresh client leave the registry with one entry under that
key. -/
theorem registry_key_unique_witness :
    countKey (runOps (clientDemo, brokerEmpty)
      [SubOp.plain "a" none, SubOp.plain "a" none]).1.subscribers "a" ≤ 1 :=
  (registry_key_unique [SubOp.plain "a" none, SubOp.plain "a" none] clientDemo brokerEmpty
    (fun _ => Nat.zero_le 1)).1 "a"

/-- C8 (counterexample): SubscribeToAll on a connected client returns
the subscription handle while the client's registry — empty before the
call — is returned untouched: no entry is created under the wildcard
key ">". -/
theorem subscribeToAll_no_registry_counterexample :
    (SubscribeToAll (some clientDemo) brokerEmpty none).1 = Except.ok (some 0) ∧
    (SubscribeToAll (some clientDemo) brokerEmpty none).2.1 = some clientDemo ∧
    lookupKey clientDemo.subscribers ">" = none :=
  ⟨rfl, rfl, rfl⟩

/-- C8 (amended): only the client methods Subscribe and QueueSubscribe
register the created subscription in the subscribers map (under the
subject, respectively subject + ":" + queue) before returning the
handle; the four helper functions of subscribe.go wrap the handler and
return the handle without touching the registry. -/
theorem registration_split_amended (c : Client) (b : Broker) (subject queue sn : String)
    (subErr re ce : Option String) :
    (∀ c1 b1 sid, Subscribe c b subject subErr = Except.ok (c1, b1, sid) →
      lookupKey c1.subscribers subject = some sid) ∧
    (∀ c1 b1 sid, QueueSubscribe c b subject queue subErr = Except.ok (c1, b1, sid) →
      lookupKey c1.subscribers (subject ++ ":" ++ queue) = some sid) ∧
    (SubscribeToAll (some c) b subErr).2.1 = some c ∧
    (SubscribeToSubject (some c) b subject subErr).2.1 = some c ∧
    (SubscribeToQueueGroup (some c) b subject queue subErr).2.1 = some c ∧
    (SubscribeToJetStream (some c) b sn subject re ce).2.1 = some c := by
  refine ⟨?_, ?_, ?_, ?_, ?_, ?_⟩
  · intro c1 b1 sid hs
    obtain ⟨hc1, _, _⟩ := Subscribe_ok_inv c b subject subErr c1 b1 sid hs
    subst hc1
    exact lookupKey_insertReplace_self _ _ _
  · intro c1 b1 sid hs
    obtain ⟨hc1, _, _⟩ := QueueSubscribe_ok_inv c b subject queue subErr c1 b1 sid hs
    subst hc1
    exact lookupKey_insertReplace_self _ _ _
  · cases hcn : c.connNil <;> cases subErr <;> simp [SubscribeToAll, hcn]
  · cases hcn : c.connNil <;> cases subErr <;> simp [SubscribeToSubject, hcn]
  · cases hcn : c.connNil <;> cases subErr <;> simp [SubscribeToQueueGroup, hcn]
  · by_cases hjs : c.jsNil = true
    · simp [SubscribeToJetStream, hjs]
    · have hjs1 : c.jsNil = false := by simpa using hjs
      cases hE : EnsureStream false b.streams sn [subject] re with
      | error e0 => simp [SubscribeToJetStream, hjs1, hE]
      | ok pr =>
        obtain ⟨s1, cfg⟩ := pr
        cases ce <;> simp [SubscribeToJetStream, hjs1, hE]

/-- Witness for C8's amended statement at a concrete input. -/
theorem registration_split_amended_witness :
    Subscribe clientDemo brokerEmpty "a" none =
      Except.ok (⟨false, true, false, [("a", 0)]⟩, ⟨[0], 1, [], [], []⟩, 0) ∧
    lookupKey (⟨false, true, false, [("a", 0)]⟩ : Client).subscribers "a" = some 0 :=
  ⟨rfl, (registration_split_amended clientDemo brokerEmpty "a" "q" "s" none none none).1
    ⟨false, true, false, [("a", 0)]⟩ ⟨[0], 1, [], [], []⟩ 0 rfl⟩

/-- C9 (counterexample): on a nil client, a nil connection, or a nil
JetStream context, the subscribe helpers return (nil, nil): no
subscription and no error, so the failure is silently swallowed rather
than surfaced. -/
theorem subscribe_nil_silent_counterexample :
    (SubscribeToAll none brokerEmpty none).1 = Except.ok none ∧
    (SubscribeToAll (some ⟨true, false, false, []⟩) brokerEmpty none).1 = Except.ok none ∧
    (SubscribeToJetStream (some clientNoJs) brokerEmpty "s" "a" none none).1 = Except.ok none :=
  ⟨rfl, rfl, rfl⟩

/-- C9 (amended): on a nil client or nil conn the three plain helpers,
and on a nil client or nil JetStream context the JetStream helper,
return ok-with-no-subscription instead of an error; errors of the
underlying broker subscribe and of stream provisioning do propagate to
the caller. -/
theorem subscribe_nil_returns_amended (b : Broker) (subject queue sn : String)
    (subErr re ce : Option String) (c : Client) :
    (SubscribeToAll none b subErr).1 = Except.ok none ∧
    (c.connNil = true →
      (SubscribeToAll (some c) b subErr).1 = Except.ok none ∧
      (SubscribeToSubject (some c) b subject subErr).1 = Except.ok none ∧
      (SubscribeToQueueGroup (some c) b subject queue subErr).1 = Except.ok none) ∧
    (SubscribeToJetStream none b sn subject re ce).1 = Except.ok none ∧
    (c.jsNil = true → (SubscribeToJetStream (some c) b sn subject re ce).1 = Except.ok none) ∧
    (c.connNil = false → ∀ e0, (SubscribeToAll (some c) b (some e0)).1 = Except.error e0) ∧
    (c.jsNil = false → lookupKey b.streams sn = none → ∀ e0,
      (SubscribeToJetStream (some c) b sn subject (some e0) ce).1 =
        Except.error ("failed to create stream: " ++ e0)) := by
  refine ⟨rfl, fun hcn => ⟨?_, ?_, ?_⟩, rfl, fun hjs => ?_, fun hcn e0 => ?_,
    fun hjs hnone e0 => ?_⟩
  · simp [SubscribeToAll, hcn]
  · simp [SubscribeToSubject, hcn]
  · simp [SubscribeToQueueGroup, hcn]
  · simp [SubscribeToJetStream, hjs]
  · simp [SubscribeToAll, hcn]
  · simp [SubscribeToJetStream, hjs, EnsureStream, GetStream, hnone, CreateStream]

/-- Witness for C9's amended statement at concrete inputs: a client
with a nil conn, and a client with a nil JetStream context. -/
theorem subscribe_nil_returns_amended_witness :
    ((⟨true, false, false, []⟩ : Client).connNil = true ∧
      (SubscribeToAll (some ⟨true, false, false, []⟩) brokerEmpty none).1 = Except.ok none) ∧
    (clientNoJs.jsNil = true ∧
      (SubscribeToJetStream (some clientNoJs) brokerEmpty "s" "a" none none).1 =
        Except.ok none) :=
  ⟨⟨rfl, ((subscribe_nil_returns_amended brokerEmpty "a" "q" "s" none none none
      ⟨true, false, false, []⟩).2.1 rfl).1⟩,
   ⟨rfl, (subscribe_nil_returns_amended brokerEmpty "a" "q" "s" none none none
      clientNoJs).2.2.2.1 rfl⟩⟩

/-- C10: a successful Subscribe or QueueSubscribe only overwrites the
registry entry under its derived key: the connection flags are
untouched, lookups of every other key are unchanged, the previously
registered broker-level subscription is not unsubscribed (every active
subscription stays active), and the broker's streams, consumers and
published messages are untouched. -/
theorem subscribe_replacement_frame (c : Client) (b : Broker) (subject queue : String)
    (subErr : Option String) (c1 c2 : Client) (b1 b2 : Broker) (sid1 sid2 : Nat)
    (h1 : Subscribe c b subject subErr = Except.ok (c1, b1, sid1))
    (h2 : QueueSubscribe c b subject queue subErr = Except.ok (c2, b2, sid2)) :
    (c1.connNil = c.connNil ∧ c1.connConnected = c.connConnected ∧ c1.jsNil = c.jsNil) ∧
    c1.subscribers = insertReplace c.subscribers subject sid1 ∧
    (∀ k, k ≠ subject → lookupKey c1.subscribers k = lookupKey c.subscribers k) ∧
    (∀ oldId, oldId ∈ b.subs → oldId ∈ b1.subs) ∧
    b1.streams = b.streams ∧ b1.consumers = b.consumers ∧ b1.published = b.published ∧
    c2.subscribers = insertReplace c.subscribers (subject ++ ":" ++ queue) sid2 ∧
    (∀ oldId, oldId ∈ b.subs → oldId ∈ b2.subs) := by
  obtain ⟨hc1, hb1, _⟩ := Subscribe_ok_inv c b subject subErr c1 b1 sid1 h1
  obtain ⟨hc2, hb2, _⟩ := QueueSubscribe_ok_inv c b subject queue subErr c2 b2 sid2 h2
  subst hc1
  subst hb1
  subst hc2
  subst hb2
  refine ⟨⟨rfl, rfl, rfl⟩, rfl, ?_, ?_, rfl, rfl, rfl, rfl, ?_⟩
  · intro k hk
    exact lookupKey_insertReplace_ne _ _ _ _ hk
  · intro oldId hmem
    exact List.mem_cons_of_mem _ hmem
  · intro oldId hmem
    exact List.mem_cons_of_mem _ hmem

/-- Witness for C10 at a concrete input. -/
theorem subscribe_replacement_frame_witness :
    Subscribe clientDemo brokerEmpty "a" none =
      Except.ok (⟨false, true, false, [("a", 0)]⟩, ⟨[0], 1, [], [], []⟩, 0) ∧
    QueueSubscribe clientDemo brokerEmpty "a" "q" none =
      Except.ok (⟨false, true, false, [("a" ++ ":" ++ "q", 0)]⟩, ⟨[0], 1, [], [], []⟩, 0) ∧
    (⟨false, true, false, [("a", 0)]⟩ : Client).subscribers =
      insertReplace clientDemo.subscribers "a" 0 :=
  ⟨rfl, rfl,
    (subscribe_replacement_frame clientDemo brokerEmpty "a" "q" none
      ⟨false, true, false, [("a", 0)]⟩ ⟨false, true, false, [("a" ++ ":" ++ "q", 0)]⟩
      ⟨[0], 1, [], [], []⟩ ⟨[0], 1, [], [], []⟩ 0 0 rfl rfl).2.1⟩

end GoNats
